import Mathlib

/-
  Verification development for the element-learning-and-matching subsystem
  of the computer-use-agents repository (src/element_detector.py).

  The Python source is shallowly embedded: strings are lists of characters,
  numeric tokens parsed from text are kept as exact decimals (a natural
  numerator over a power-of-ten denominator, which is the exact value of the
  digit string), machine integers are unbounded as in Python, and the Python
  built-in int() applied to a nonnegative exact value is natural-number
  (floor) division.  External collaborators (the vision model, the
  filesystem, the template search) are passed in as explicit oracle values
  whose failures are represented with Except.
-/

set_option autoImplicit false

abbrev Chars := List Char

/-- Python whitespace characters recognised by str.strip. -/
def isPySpace (c : Char) : Bool :=
  c == ' ' || c == '\t' || c == '\n' || c == '\r' || c == '\x0b' || c == '\x0c'

/-- Embedding of Python str.strip (remove leading and trailing whitespace). -/
def pyStrip (s : Chars) : Chars :=
  ((s.dropWhile isPySpace).reverse.dropWhile isPySpace).reverse

/-- Embedding of Python str.split applied with a newline separator: splits on
every newline and keeps empty pieces. -/
def pySplitLines : Chars → List Chars
  | [] => [[]]
  | c :: rest =>
    if c = '\n' then [] :: pySplitLines rest
    else
      match pySplitLines rest with
      | [] => [[c]]
      | piece :: pieces => (c :: piece) :: pieces

/-- Embedding of Python line.split with a separator and maxsplit 1: splits at
the first occurrence of the separator, or returns none when the separator does
not occur (the source guards the split with a containment test). -/
def pySplitOnce (sep : Char) : Chars → Option (Chars × Chars)
  | [] => none
  | c :: rest =>
    if c = sep then some ([], rest)
    else
      match pySplitOnce sep rest with
      | some (a, b) => some (c :: a, b)
      | none => none

/-- Embedding of Python str.upper restricted to ASCII text. -/
def pyUpper (s : Chars) : Chars := s.map Char.toUpper

/-- The maximal token matched at the start of s by the pattern used in
the source source code: one or more digits, an optional dot, then zero or
more digits. -/
def numToken (s : Chars) : Chars :=
  let ip := s.takeWhile Char.isDigit
  match s.drop ip.length with
  | '.' :: rest => ip ++ '.' :: rest.takeWhile Char.isDigit
  | _ => ip

/-- First (leftmost) numeric token of the value text, as found by
re.findall with the digits, optional dot, digits pattern in the source.
The pattern carries no sign, so a minus sign is never part of a token. -/
def findNumberToken : Chars → Option Chars
  | [] => none
  | c :: rest =>
    if c.isDigit then some (numToken (c :: rest))
    else findNumberToken rest

/-- Decimal value of a digit string. -/
def digitsToNat (s : Chars) : Nat :=
  s.foldl (fun a c => 10 * a + (c.toNat - 48)) 0

/-- An exact nonnegative decimal: the value is num divided by 10 to the
scale.  This is the exact value of a numeric token; the Python float of the
token is idealised as this exact value. -/
structure Dec where
  num : ℕ
  scale : ℕ
deriving DecidableEq, Repr

/-- Exact value of a numeric token: integer digits and optional fractional
digits after a dot. -/
def tokenToDec (t : Chars) : Dec :=
  let ip := t.takeWhile Char.isDigit
  let fp :=
    match t.drop ip.length with
    | '.' :: rest => rest
    | _ => []
  ⟨digitsToNat ip * 10 ^ fp.length + digitsToNat fp, fp.length⟩

/-- Rational value denoted by an exact decimal. -/
def decVal (d : Dec) : ℚ := (d.num : ℚ) / (10 ^ d.scale : ℚ)

/-- Partially collected percentage values, one slot per required key,
mirroring the coords dictionary built by the parsing loop. -/
structure PctCoords where
  left : Option Dec
  top : Option Dec
  width : Option Dec
  height : Option Dec
deriving DecidableEq, Repr

def initCoords : PctCoords := ⟨none, none, none, none⟩

/-- One iteration of the line loop in the source: strip the line, split at
the first colon, uppercase the stripped key, and when the key is one of the
four required ones and the value holds a numeric token, record its value
(later lines overwrite earlier ones, as dictionary assignment does). -/
def processLine (acc : PctCoords) (rawLine : Chars) : PctCoords :=
  let line := pyStrip rawLine
  match pySplitOnce ':' line with
  | none => acc
  | some (k, rest) =>
    let key := pyUpper (pyStrip k)
    let value := pyStrip rest
    if key = "LEFT".data ∨ key = "TOP".data ∨ key = "WIDTH".data ∨ key = "HEIGHT".data then
      match findNumberToken value with
      | some tok =>
        let d := tokenToDec tok
        if key = "LEFT".data then { acc with left := some d }
        else if key = "TOP".data then { acc with top := some d }
        else if key = "WIDTH".data then { acc with width := some d }
        else { acc with height := some d }
      | none => acc
    else acc

/-- Pixel geometry as returned by the parser: left, top, width, height.
Python integers are unbounded, and all values produced by the parser are
nonnegative, so the fields are naturals. -/
structure Geometry where
  left : ℕ
  top : ℕ
  width : ℕ
  height : ℕ
deriving DecidableEq, Repr

/-- Pixel conversion performed by the source: int(percent * dimension / 100)
on the exact value of the parsed token.  The value is nonnegative, so Python
int() is the floor, and on exact decimals it is natural division. -/
def pctToPixel (d : Dec) (dim : ℕ) : ℕ := d.num * dim / (100 * 10 ^ d.scale)

/-- Core of the coordinate parser on an already split list of lines:
fold the line loop, then require all four keys and convert each percentage
to pixels. -/
def parseLines (lines : List Chars) (screenW screenH : ℕ) : Option Geometry :=
  let c := lines.foldl processLine initCoords
  match c.left, c.top, c.width, c.height with
  | some l, some t, some w, some h =>
    some ⟨pctToPixel l screenW, pctToPixel t screenH,
          pctToPixel w screenW, pctToPixel h screenH⟩
  | _, _, _, _ => none

/-- Embedding of the private coordinate-parsing method of the detector:
strip the response, split into lines, run the line loop, and convert.
Returns none (the NotFound outcome) when any of the four required keys is
missing or carries no numeric token. -/
def parseCoordinates (response : Chars) (screenW screenH : ℕ) : Option Geometry :=
  parseLines (pySplitLines (pyStrip response)) screenW screenH

/-- The four percentage values the parser extracts from a response, when all
four required keys are present; used to state conversion theorems. -/
def extractPercents (response : Chars) : Option (Dec × Dec × Dec × Dec) :=
  let c := (pySplitLines (pyStrip response)).foldl processLine initCoords
  match c.left, c.top, c.width, c.height with
  | some l, some t, some w, some h => some (l, t, w, h)
  | _, _, _, _ => none

/-- Pixel conversion as the specification words it: round the quotient to
the nearest integer. Modelled from the spec for comparison with the source
conversion. -/
def specRoundPixel (percent : ℚ) (dim : ℕ) : ℤ := round (percent * dim / 100)

/-- Pixel conversion as the claim about out-of-range values words it, for a
possibly negative percentage: Python int() truncates toward zero. Modelled
from the spec for comparison with the source conversion. -/
def specIntPixel (percent : ℚ) (dim : ℕ) : ℤ :=
  if percent * dim / 100 < 0 then ⌈percent * dim / 100⌉ else ⌊percent * dim / 100⌋

/-- A point on screen, used as click target (pixel units). -/
abbrev Point := ℕ × ℕ

/-- A full-screen raster snapshot: its pixel size plus an abstract content
identifier standing for the pixel data. -/
structure ScreenImage where
  width : ℕ
  height : ℕ
  content : ℕ
deriving DecidableEq, Repr

/-- The four-tuple passed to the image crop call: left, upper, right, lower.
The fields are integers because nothing in the source constrains them to the
screen bounds. -/
structure CropBox where
  l : ℤ
  u : ℤ
  r : ℤ
  d : ℤ
deriving DecidableEq, Repr

/-- A cropped template image, identified by its source snapshot and the box
it was cropped with (a pure model of the crop call, which pads when the box
leaves the source bounds and so never fails). -/
structure Image where
  src : ScreenImage
  box : CropBox
deriving DecidableEq, Repr

/-- Embedding of the crop call on a screenshot. -/
def cropImage (s : ScreenImage) (b : CropBox) : Image := ⟨s, b⟩

/-- One cached element record, as stored in the elements cache: stored file
name, stored file path, the geometry at creation time, and the timestamp. -/
structure ElementRecord where
  filename : Chars
  filepath : Chars
  coords : Geometry
  timestamp : Chars
deriving DecidableEq, Repr

/-- The in-memory elements cache: a Python dictionary from the raw element
name to its record, modelled as an association list without duplicate keys. -/
abbrev Cache := List (Chars × ElementRecord)

/-- The template files on disk: file path to image content. -/
abbrev Disk := List (Chars × Image)

/-- Dictionary lookup: first entry with the given key. -/
def dictGet {α : Type} : List (Chars × α) → Chars → Option α
  | [], _ => none
  | (k', v) :: rest, k => if k' = k then some v else dictGet rest k

/-- Dictionary assignment: replace the entry under the key if present,
append otherwise (Python dictionary item assignment). -/
def dictInsert {α : Type} : List (Chars × α) → Chars → α → List (Chars × α)
  | [], k, v => [(k, v)]
  | (k', v') :: rest, k, v =>
    if k' = k then (k, v) :: rest else (k', v') :: dictInsert rest k v

/-- Number of entries stored under a key. -/
def countKey {α : Type} : List (Chars × α) → Chars → ℕ
  | [], _ => 0
  | (k', _) :: rest, k => (if k' = k then 1 else 0) + countKey rest k

/-- Name sanitisation used for the stored file name: keep only alphanumeric
characters, spaces, hyphens and underscores, strip, replace spaces with
underscores, lower-case (ASCII). -/
def safeName (name : Chars) : Chars :=
  (((name.filter fun c => c.isAlphanum || c == ' ' || c == '-' || c == '_')
    |> pyStrip)
    |>.map fun c => if c = ' ' then '_' else c)
    |>.map Char.toLower

/-- Oracles for the external collaborators of the detector.  Fallible calls
are modelled with Except: an error value stands for a raised exception in
the collaborator. -/
structure Env where
  /-- Directory holding the template images (constructor argument). -/
  elementsDir : Chars
  /-- Filesystem existence test for a path. -/
  fileExists : Chars → Bool
  /-- The template search on the live screen: given the template file path
  and the minimum confidence, the centre of a sufficiently confident match,
  none when there is no such match, or a raised error. -/
  locate : Chars → ℚ → Except Chars (Option Point)
  /-- The vision model call: given the element description and the screen
  size embedded in the instruction text, the textual response or a raised
  transport error. -/
  perception : Chars → ℕ → ℕ → Except Chars Chars

/-- Embedding of the vision analyser wrapper: the model call is guarded by
a handler that turns any raised error into plain failure text, so this
always returns text. -/
def analyzeScreenshot (env : Env) (desc : Chars) (w h : ℕ) : Chars :=
  match env.perception desc w h with
  | Except.ok s => s
  | Except.error e => "Error analyzing screenshot: ".data ++ e

/-- Embedding of the lookup of a previously saved element on the current
screen: a cache miss, a missing template file, an unsuccessful search and a
raised search error all yield none; a sufficiently confident match yields
its centre point. -/
def findElementOnScreen (env : Env) (cache : Cache) (name : Chars) (conf : ℚ) :
    Option Point :=
  match dictGet cache name with
  | none => none
  | some rec =>
    if env.fileExists rec.filepath then
      match env.locate rec.filepath conf with
      | Except.ok (some pt) => some pt
      | Except.ok none => none
      | Except.error _ => none
    else none

/-- Embedding of the AI estimation pass: ask the vision model, parse the
response, and on success crop the screenshot to the box built directly from
the parsed geometry. -/
def extractElementFromDescription (env : Env) (screen : ScreenImage) (desc : Chars) :
    Option (Image × Geometry) :=
  match parseCoordinates (analyzeScreenshot env desc screen.width screen.height)
      screen.width screen.height with
  | some g =>
    some (cropImage screen
      ⟨(g.left : ℤ), (g.top : ℤ), (g.left : ℤ) + (g.width : ℤ), (g.top : ℤ) + (g.height : ℤ)⟩, g)
  | none => none

/-- Embedding of saving an extracted element: write the template image under
a sanitised, timestamped file name, and assign the record in the cache under
the raw element name. -/
def saveElement (env : Env) (cache : Cache) (disk : Disk) (name : Chars)
    (img : Image) (g : Geometry) (ts : Chars) : Cache × Disk :=
  let fn := safeName name ++ "_".data ++ ts ++ ".png".data
  let fp := env.elementsDir ++ "/".data ++ fn
  (dictInsert cache name ⟨fn, fp, g, ts⟩, dictInsert disk fp img)

/-- Observable events of one lookup-and-act run. -/
inductive Event where
  | perceptionCall
  | click (p : Point)
deriving DecidableEq, Repr

/-- Outcome of one lookup-and-act run: the returned flag and point, plus
the event trace and the updated cache and disk. -/
structure LocateResult where
  success : Bool
  point : Option Point
  trace : List Event
  cache : Cache
  disk : Disk
deriving DecidableEq, Repr

/-- Embedding of the lookup-and-act operation of the detector: first try the
cached template with the default confidence; on a hit, click its centre; on
a miss, run the AI estimation pass, and when it parses, save the element and
click the centre of the detected region; otherwise report failure as a
returned pair. -/
def learnAndClick (env : Env) (cache : Cache) (disk : Disk) (screen : ScreenImage)
    (desc : Chars) (ts : Chars) : LocateResult :=
  match findElementOnScreen env cache desc (4 / 5) with
  | some pt => ⟨true, some pt, [Event.click pt], cache, disk⟩
  | none =>
    match extractElementFromDescription env screen desc with
    | some (img, g) =>
      let cd := saveElement env cache disk desc img g ts
      let cx := g.left + g.width / 2
      let cy := g.top + g.height / 2
      ⟨true, some (cx, cy), [Event.perceptionCall, Event.click (cx, cy)], cd.1, cd.2⟩
    | none => ⟨false, none, [Event.perceptionCall], cache, disk⟩

/-- Embedding of the cache load at construction: when the cache file does
not exist the empty mapping is returned; when it exists, the result of the
json decode is returned as is — a decode error propagates, since the call
carries no handler. -/
def loadCache (cacheFileExists : Bool) (jsonLoad : Except Chars Cache) :
    Except Chars Cache :=
  if cacheFileExists then jsonLoad else Except.ok []

/-- Primitive file operations that the cache save performs on the cache
file. -/
inductive FileOp where
  | truncate
  | write (chunk : Chars)
deriving DecidableEq, Repr

/-- Effect of one file operation on the file content. -/
def applyOp (content : Chars) : FileOp → Chars
  | FileOp.truncate => []
  | FileOp.write chunk => content ++ chunk

/-- Content of the file after a sequence of operations. -/
def runOps (content : Chars) (ops : List FileOp) : Chars :=
  ops.foldl applyOp content

/-- Embedding of the cache save: the file is opened for writing in place,
which truncates it, and the serialised mapping is then written to the same
path.  No temporary path or rename is involved. -/
def saveCacheOps (serialized : Chars) : List FileOp :=
  [FileOp.truncate, FileOp.write serialized]

/-- The exact value of a parsed decimal is nonnegative: the numeric token
pattern carries no sign. -/
lemma decVal_nonneg (d : Dec) : 0 ≤ decVal d := by
  unfold decVal
  positivity

/-- The source conversion on an exact decimal computes the floor of the
exact quotient percent times dimension over one hundred. -/
lemma pctToPixel_eq_floor (d : Dec) (dim : ℕ) :
    (pctToPixel d dim : ℤ) = ⌊decVal d * dim / 100⌋ := by
  have hval : decVal d * dim / 100 =
      ((d.num * dim : ℕ) : ℚ) / ((100 * 10 ^ d.scale : ℕ) : ℚ) := by
    unfold decVal
    push_cast
    rw [div_mul_eq_mul_div, div_div]
    ring_nf
  rw [hval, Rat.floor_natCast_div_natCast]
  rfl

/-- On a nonnegative percentage the truncation of the spec coincides with
the floor, hence with the source conversion. -/
lemma specIntPixel_eq_pctToPixel (d : Dec) (dim : ℕ) :
    specIntPixel (decVal d) dim = (pctToPixel d dim : ℤ) := by
  have hnn : (0 : ℚ) ≤ decVal d * dim / 100 := by
    have := decVal_nonneg d
    positivity
  unfold specIntPixel
  rw [if_neg (not_lt.mpr hnn), pctToPixel_eq_floor]

/-- The parser result is exactly the extracted percentages pushed through
the source conversion. -/
lemma parseCoordinates_eq_map (r : Chars) (W H : ℕ) :
    parseCoordinates r W H = (extractPercents r).map
      (fun p => ⟨pctToPixel p.1 W, pctToPixel p.2.1 H,
                 pctToPixel p.2.2.1 W, pctToPixel p.2.2.2 H⟩) := by
  simp only [parseCoordinates, parseLines, extractPercents]
  generalize (pySplitLines (pyStrip r)).foldl processLine initCoords = c
  obtain ⟨l, t, w, h⟩ := c
  cases l <;> cases t <;> cases w <;> cases h <;> rfl

/-- C1: the claim says the parser converts each percentage with
pixel = round(percent times dimension over 100). The source truncates with
int() instead, so the claim fails: on the response below, LEFT is 1.5
percent of a 100-pixel screen, the exact quotient is 1.5, the spec formula
rounds it to 2, and the parser returns 1. -/
theorem parse_round_counterexample :
    parseCoordinates "LEFT: 1.5\nTOP: 0\nWIDTH: 0\nHEIGHT: 0".data 100 100 =
      some ⟨1, 0, 0, 0⟩ ∧
    extractPercents "LEFT: 1.5\nTOP: 0\nWIDTH: 0\nHEIGHT: 0".data =
      some (⟨15, 1⟩, ⟨0, 0⟩, ⟨0, 0⟩, ⟨0, 0⟩) ∧
    decVal ⟨15, 1⟩ = 3 / 2 ∧
    specRoundPixel (3 / 2) 100 = 2 ∧
    (1 : ℤ) ≠ 2 := by
  refine ⟨by decide, by decide, ?_, ?_, by decide⟩
  · unfold decVal
    norm_num
  · unfold specRoundPixel
    rw [round_eq]
    norm_num

/-- C1 (amended): whenever the four required keys parse to percentage
values, each pixel field of the returned geometry is the truncation
int(percent times dimension over 100) — the floor of the exact quotient,
the parsed percentages being nonnegative — not the rounding to nearest. -/
theorem parse_pixel_truncates (r : Chars) (W H : ℕ) (l t w h : Dec)
    (hp : extractPercents r = some (l, t, w, h)) :
    ∃ g : Geometry, parseCoordinates r W H = some g ∧
      (g.left : ℤ) = specIntPixel (decVal l) W ∧
      (g.top : ℤ) = specIntPixel (decVal t) H ∧
      (g.width : ℤ) = specIntPixel (decVal w) W ∧
      (g.height : ℤ) = specIntPixel (decVal h) H ∧
      (g.left : ℤ) = ⌊decVal l * W / 100⌋ ∧
      (g.top : ℤ) = ⌊decVal t * H / 100⌋ ∧
      (g.width : ℤ) = ⌊decVal w * W / 100⌋ ∧
      (g.height : ℤ) = ⌊decVal h * H / 100⌋ := by
  refine ⟨⟨pctToPixel l W, pctToPixel t H, pctToPixel w W, pctToPixel h H⟩, ?_, ?_, ?_, ?_, ?_, ?_, ?_, ?_, ?_⟩
  · rw [parseCoordinates_eq_map, hp]
    rfl
  all_goals
    first
      | exact (specIntPixel_eq_pctToPixel _ _).symm
      | exact pctToPixel_eq_floor _ _

/-- C1 witness: the amended theorem applied to the scenario response of the
specification on a 1000 by 800 screen. -/
theorem parse_pixel_truncates_witness :
    ∃ g : Geometry,
      parseCoordinates "ELEMENT: Button\nLEFT: 10\nTOP: 20\nWIDTH: 5\nHEIGHT: 3\nCONFIDENCE: high".data 1000 800 = some g ∧
      (g.left : ℤ) = specIntPixel (decVal ⟨10, 0⟩) 1000 ∧
      (g.top : ℤ) = specIntPixel (decVal ⟨20, 0⟩) 800 ∧
      (g.width : ℤ) = specIntPixel (decVal ⟨5, 0⟩) 1000 ∧
      (g.height : ℤ) = specIntPixel (decVal ⟨3, 0⟩) 800 ∧
      (g.left : ℤ) = ⌊decVal ⟨10, 0⟩ * 1000 / 100⌋ ∧
      (g.top : ℤ) = ⌊decVal ⟨20, 0⟩ * 800 / 100⌋ ∧
      (g.width : ℤ) = ⌊decVal ⟨5, 0⟩ * 1000 / 100⌋ ∧
      (g.height : ℤ) = ⌊decVal ⟨3, 0⟩ * 800 / 100⌋ :=
  parse_pixel_truncates _ 1000 800 ⟨10, 0⟩ ⟨20, 0⟩ ⟨5, 0⟩ ⟨3, 0⟩ (by decide)


/-- The key a line carries: the stripped text before the first colon,
upper-cased; none when the line has no colon. -/
def keyOf (rawLine : Chars) : Option Chars :=
  (pySplitOnce ':' (pyStrip rawLine)).map fun kv => pyUpper (pyStrip kv.1)

/-- Whether one line supplies a value for the given required key: it has a
colon, its key matches, and its value holds a numeric token. -/
def lineYields (key : Chars) (rawLine : Chars) : Bool :=
  match pySplitOnce ':' (pyStrip rawLine) with
  | none => false
  | some (k, rest) =>
    decide (pyUpper (pyStrip k) = key) && (findNumberToken (pyStrip rest)).isSome

/-- Whether any line of the response supplies a value for the given key. -/
def keyYielded (key : Chars) (response : Chars) : Bool :=
  (pySplitLines (pyStrip response)).any (lineYields key)

/-- A line that does not supply a LEFT value leaves the LEFT slot of the
accumulator unchanged. -/
lemma processLine_left (acc : PctCoords) (line : Chars)
    (h : lineYields "LEFT".data line = false) :
    (processLine acc line).left = acc.left := by
  unfold lineYields at h
  simp only [processLine]
  split
  · rfl
  · rename_i k rest heq
    rw [heq] at h
    simp only [decide_eq_false_iff_not, Bool.and_eq_false_iff] at h
    cases hof : findNumberToken (pyStrip rest) with
    | none =>
      simp only [hof]
      split <;> rfl
    | some tok =>
      simp only [hof]
      rcases h with h | h
      · split_ifs <;> first | rfl | tauto
      · rw [hof] at h
        simp at h

/-- A line that does not supply a TOP value leaves the TOP slot of the
accumulator unchanged. -/
lemma processLine_top (acc : PctCoords) (line : Chars)
    (h : lineYields "TOP".data line = false) :
    (processLine acc line).top = acc.top := by
  unfold lineYields at h
  simp only [processLine]
  split
  · rfl
  · rename_i k rest heq
    rw [heq] at h
    simp only [decide_eq_false_iff_not, Bool.and_eq_false_iff] at h
    cases hof : findNumberToken (pyStrip rest) with
    | none =>
      simp only [hof]
      split <;> rfl
    | some tok =>
      simp only [hof]
      rcases h with h | h
      · split_ifs <;> first | rfl | tauto
      · rw [hof] at h
        simp at h

/-- A line that does not supply a WIDTH value leaves the WIDTH slot of the
accumulator unchanged. -/
lemma processLine_width (acc : PctCoords) (line : Chars)
    (h : lineYields "WIDTH".data line = false) :
    (processLine acc line).width = acc.width := by
  unfold lineYields at h
  simp only [processLine]
  split
  · rfl
  · rename_i k rest heq
    rw [heq] at h
    simp only [decide_eq_false_iff_not, Bool.and_eq_false_iff] at h
    cases hof : findNumberToken (pyStrip rest) with
    | none =>
      simp only [hof]
      split <;> rfl
    | some tok =>
      simp only [hof]
      rcases h with h | h
      · split_ifs <;> first | rfl | tauto
      · rw [hof] at h
        simp at h

/-- A line that does not supply a HEIGHT value leaves the HEIGHT slot of
the accumulator unchanged. -/
lemma processLine_height (acc : PctCoords) (line : Chars)
    (h : lineYields "HEIGHT".data line = false) :
    (processLine acc line).height = acc.height := by
  unfold lineYields at h
  simp only [processLine]
  split
  · rfl
  · rename_i k rest heq
    rw [heq] at h
    simp only [decide_eq_false_iff_not, Bool.and_eq_false_iff] at h
    cases hof : findNumberToken (pyStrip rest) with
    | none =>
      simp only [hof]
      split <;> rfl
    | some tok =>
      simp only [hof]
      rcases h with h | h
      · split_ifs <;> first | rfl | tauto
      · rw [hof] at h
        simp at h

/-- Folding the line loop over lines none of which supplies a LEFT value
leaves the LEFT slot unchanged. -/
lemma foldl_left (lines : List Chars) (acc : PctCoords)
    (h : ∀ l ∈ lines, lineYields "LEFT".data l = false) :
    (lines.foldl processLine acc).left = acc.left := by
  induction lines generalizing acc with
  | nil => rfl
  | cons a as ih =>
    rw [List.foldl_cons, ih _ fun l hl => h l (List.mem_cons_of_mem _ hl)]
    exact processLine_left acc a (h a (List.mem_cons_self _ _))

/-- Folding the line loop over lines none of which supplies a TOP value
leaves the TOP slot unchanged. -/
lemma foldl_top (lines : List Chars) (acc : PctCoords)
    (h : ∀ l ∈ lines, lineYields "TOP".data l = false) :
    (lines.foldl processLine acc).top = acc.top := by
  induction lines generalizing acc with
  | nil => rfl
  | cons a as ih =>
    rw [List.foldl_cons, ih _ fun l hl => h l (List.mem_cons_of_mem _ hl)]
    exact processLine_top acc a (h a (List.mem_cons_self _ _))

/-- Folding the line loop over lines none of which supplies a WIDTH value
leaves the WIDTH slot unchanged. -/
lemma foldl_width (lines : List Chars) (acc : PctCoords)
    (h : ∀ l ∈ lines, lineYields "WIDTH".data l = false) :
    (lines.foldl processLine acc).width = acc.width := by
  induction lines generalizing acc with
  | nil => rfl
  | cons a as ih =>
    rw [List.foldl_cons, ih _ fun l hl => h l (List.mem_cons_of_mem _ hl)]
    exact processLine_width acc a (h a (List.mem_cons_self _ _))

/-- Folding the line loop over lines none of which supplies a HEIGHT value
leaves the HEIGHT slot unchanged. -/
lemma foldl_height (lines : List Chars) (acc : PctCoords)
    (h : ∀ l ∈ lines, lineYields "HEIGHT".data l = false) :
    (lines.foldl processLine acc).height = acc.height := by
  induction lines generalizing acc with
  | nil => rfl
  | cons a as ih =>
    rw [List.foldl_cons, ih _ fun l hl => h l (List.mem_cons_of_mem _ hl)]
    exact processLine_height acc a (h a (List.mem_cons_self _ _))

/-- The parser returns none as soon as one accumulator slot is empty after
the fold. -/
lemma parseLines_none_of_missing (lines : List Chars) (W H : ℕ)
    (h : (lines.foldl processLine initCoords).left = none ∨
         (lines.foldl processLine initCoords).top = none ∨
         (lines.foldl processLine initCoords).width = none ∨
         (lines.foldl processLine initCoords).height = none) :
    parseLines lines W H = none := by
  simp only [parseLines]
  generalize hg : lines.foldl processLine initCoords = c at h
  obtain ⟨l, t, w, hh⟩ := c
  simp only at h
  cases l <;> cases t <;> cases w <;> cases hh <;> simp_all

/-- A line whose key is CONFIDENCE is ignored by the line loop. -/
lemma processLine_confidence (acc : PctCoords) (line : Chars)
    (h : keyOf line = some "CONFIDENCE".data) :
    processLine acc line = acc := by
  unfold keyOf at h
  simp only [processLine]
  split
  · rfl
  · rename_i k rest heq
    rw [heq] at h
    simp only [Option.map_some] at h
    replace h : pyUpper (pyStrip k) = "CONFIDENCE".data := by
      simpa using h
    rw [if_neg]
    rw [h]
    decide

/-- C2: the parser is all-or-nothing: when any of the four required keys is
absent from the response or carries no numeric token, the parser returns
none (the NotFound outcome), never a partial geometry; and a line whose key
is CONFIDENCE is ignored by the line loop, so the presence or absence of a
CONFIDENCE field never by itself changes the parse result. -/
theorem parse_all_or_nothing :
    (∀ (r : Chars) (W H : ℕ),
      (keyYielded "LEFT".data r = false ∨ keyYielded "TOP".data r = false ∨
       keyYielded "WIDTH".data r = false ∨ keyYielded "HEIGHT".data r = false) →
      parseCoordinates r W H = none) ∧
    (∀ (pre post : List Chars) (line : Chars) (W H : ℕ),
      keyOf line = some "CONFIDENCE".data →
      parseLines (pre ++ line :: post) W H = parseLines (pre ++ post) W H) := by
  constructor
  · intro r W H h
    unfold parseCoordinates
    apply parseLines_none_of_missing
    unfold keyYielded at h
    rcases h with h | h | h | h
    · exact Or.inl (foldl_left _ _ (by simpa [List.any_eq_false] using h))
    · exact Or.inr (Or.inl (foldl_top _ _ (by simpa [List.any_eq_false] using h)))
    · exact Or.inr (Or.inr (Or.inl (foldl_width _ _ (by simpa [List.any_eq_false] using h))))
    · exact Or.inr (Or.inr (Or.inr (foldl_height _ _ (by simpa [List.any_eq_false] using h))))
  · intro pre post line W H h
    unfold parseLines
    rw [List.foldl_append, List.foldl_append, List.foldl_cons,
        processLine_confidence _ _ h]

/-- C2 witness: a response missing the HEIGHT key parses to none, and a
response parses identically with and without a CONFIDENCE line. -/
theorem parse_all_or_nothing_witness :
    parseCoordinates "LEFT: 10\nTOP: 20\nWIDTH: 5\nCONFIDENCE: high".data 1000 800 = none ∧
    parseLines ["LEFT: 10".data, "CONFIDENCE: high".data, "TOP: 20".data] 1000 800 =
      parseLines ["LEFT: 10".data, "TOP: 20".data] 1000 800 :=
  ⟨parse_all_or_nothing.1 _ 1000 800 (Or.inr (Or.inr (Or.inr (by decide)))),
   parse_all_or_nothing.2 ["LEFT: 10".data] ["TOP: 20".data] "CONFIDENCE: high".data
     1000 800 (by decide)⟩

/-- C9: the claim says values outside [0,100], including negative values,
are accepted and converted by the percent-to-pixel formula. The numeric
token pattern carries no sign, so a key holding -50 parses as 50: on the
response below the claimed formula applied to the carried value -50 yields
the pixel value -50, while the parser returns 50. -/
theorem parse_negative_counterexample :
    parseCoordinates "LEFT: -50\nTOP: 0\nWIDTH: 10\nHEIGHT: 10".data 100 100 =
      some ⟨50, 0, 10, 10⟩ ∧
    specIntPixel (-50 : ℚ) 100 = -50 ∧
    ((50 : ℤ) ≠ -50) := by
  refine ⟨by decide, ?_, by decide⟩
  unfold specIntPixel
  rw [if_pos (by norm_num)]
  have hq : ((-50 : ℚ) * ((100 : ℕ) : ℚ) / 100) = ((-50 : ℤ) : ℚ) := by
    push_cast
    norm_num
  rw [hq, Int.ceil_intCast]

/-- C9 (amended): for every parser input whose four required keys carry
numeric values — whatever their magnitude, values above 100 included — the
parser accepts them, returning a geometry rather than rejecting, and
converts each carried value by the same truncating percent-to-pixel
formula, with no clamping; and every percentage the parser can extract is
nonnegative, because the numeric token pattern has no sign — a key
carrying a negative value contributes its unsigned digits instead. -/
theorem parse_accepts_out_of_range :
    (∀ (r : Chars) (l t w h : Dec), extractPercents r = some (l, t, w, h) →
      0 ≤ decVal l ∧ 0 ≤ decVal t ∧ 0 ≤ decVal w ∧ 0 ≤ decVal h) ∧
    (∀ (r : Chars) (W H : ℕ) (l t w h : Dec),
      extractPercents r = some (l, t, w, h) →
      parseCoordinates r W H =
        some ⟨pctToPixel l W, pctToPixel t H, pctToPixel w W, pctToPixel h H⟩) := by
  constructor
  · intro r l t w h _
    exact ⟨decVal_nonneg l, decVal_nonneg t, decVal_nonneg w, decVal_nonneg h⟩
  · intro r W H l t w h hp
    rw [parseCoordinates_eq_map, hp]
    rfl

/-- C9 witness: the amended theorem applied to a response whose LEFT and
WIDTH values exceed 100 percent, on a 640 by 480 screen: the values 150
and 250 are accepted and converted by the truncating formula unchanged. -/
theorem parse_accepts_out_of_range_witness :
    (0 ≤ decVal ⟨150, 0⟩ ∧ 0 ≤ decVal ⟨0, 0⟩ ∧ 0 ≤ decVal ⟨250, 0⟩ ∧ 0 ≤ decVal ⟨0, 0⟩) ∧
    parseCoordinates "LEFT: 150\nTOP: 0\nWIDTH: 250\nHEIGHT: 0".data 640 480 =
      some ⟨pctToPixel ⟨150, 0⟩ 640, pctToPixel ⟨0, 0⟩ 480,
            pctToPixel ⟨250, 0⟩ 640, pctToPixel ⟨0, 0⟩ 480⟩ :=
  ⟨parse_accepts_out_of_range.1 "LEFT: 150\nTOP: 0\nWIDTH: 250\nHEIGHT: 0".data
      ⟨150, 0⟩ ⟨0, 0⟩ ⟨250, 0⟩ ⟨0, 0⟩ (by decide),
   parse_accepts_out_of_range.2 "LEFT: 150\nTOP: 0\nWIDTH: 250\nHEIGHT: 0".data
      640 480 ⟨150, 0⟩ ⟨0, 0⟩ ⟨250, 0⟩ ⟨0, 0⟩ (by decide)⟩

/-- A perception oracle that always answers with a fixed response text. -/
def constPerceptionEnv (response : Chars) : Env :=
  { elementsDir := "elements".data
    fileExists := fun _ => true
    locate := fun _ _ => Except.ok none
    perception := fun _ _ _ => Except.ok response }

/-- C5: the claim says the region cropped after a successful parse is first
clamped to the screen bounds. The source crops with the parsed geometry as
is: on a 100 by 100 screen, a response claiming LEFT 50 percent and WIDTH
100 percent parses to left 50 and width 100, and the box handed to the crop
call has right edge 150, beyond the screen width 100 — no clamping. -/
theorem extract_clamped_counterexample :
    extractElementFromDescription
        (constPerceptionEnv "LEFT: 50\nTOP: 0\nWIDTH: 100\nHEIGHT: 50".data)
        ⟨100, 100, 0⟩ "button".data =
      some (⟨⟨100, 100, 0⟩, ⟨50, 0, 150, 50⟩⟩, ⟨50, 0, 100, 50⟩) ∧
    ¬((150 : ℤ) ≤ 100) := by
  constructor
  · decide
  · decide

/-- C5 (amended): whenever the estimation path parses a geometry, the box
handed to the crop call is built from the parsed geometry exactly as is —
left, top, left plus width, top plus height — with no clamping to the
screen bounds; out-of-bounds geometry is passed to the crop call unchanged
(the crop call itself pads, it never fails). -/
theorem extract_box_unclamped (env : Env) (screen : ScreenImage) (desc : Chars)
    (img : Image) (g : Geometry)
    (h : extractElementFromDescription env screen desc = some (img, g)) :
    img = cropImage screen
      ⟨(g.left : ℤ), (g.top : ℤ), (g.left : ℤ) + (g.width : ℤ),
       (g.top : ℤ) + (g.height : ℤ)⟩ := by
  unfold extractElementFromDescription at h
  rcases hp : parseCoordinates (analyzeScreenshot env desc screen.width screen.height)
      screen.width screen.height with _ | g'
  · rw [hp] at h
    exact absurd h (by simp)
  · rw [hp] at h
    simp only [Option.some_inj] at h
    obtain ⟨h1, h2⟩ := Prod.mk.injEq .. ▸ h
    rw [← h1, h2]

/-- C5 witness: the amended theorem applied to the counterexample run. -/
theorem extract_box_unclamped_witness :
    (⟨⟨100, 100, 0⟩, ⟨50, 0, 150, 50⟩⟩ : Image) = cropImage ⟨100, 100, 0⟩
      ⟨((50 : ℕ) : ℤ), ((0 : ℕ) : ℤ), ((50 : ℕ) : ℤ) + ((100 : ℕ) : ℤ),
       ((0 : ℕ) : ℤ) + ((50 : ℕ) : ℤ)⟩ :=
  extract_box_unclamped
    (constPerceptionEnv "LEFT: 50\nTOP: 0\nWIDTH: 100\nHEIGHT: 50".data)
    ⟨100, 100, 0⟩ "button".data ⟨⟨100, 100, 0⟩, ⟨50, 0, 150, 50⟩⟩ ⟨50, 0, 100, 50⟩
    (by decide)

/-- A sample stored record used to exercise the cached-template path. -/
def recButton : ElementRecord :=
  ⟨"button_ts.png".data, "elements/button_ts.png".data, ⟨1, 2, 3, 4⟩, "ts".data⟩

/-- A one-record store holding the sample record under the name button. -/
def cachedButton : Cache := [("button".data, recButton)]

/-- An environment whose template search always reports a confident match
at a fixed centre. -/
def matchEnv : Env :=
  { elementsDir := "elements".data
    fileExists := fun _ => true
    locate := fun _ _ => Except.ok (some (7, 9))
    perception := fun _ _ _ => Except.ok [] }

/-- An environment in which every collaborator fails: the template file is
never present, the template search raises, and the vision call raises. -/
def failingEnv : Env :=
  { elementsDir := "elements".data
    fileExists := fun _ => false
    locate := fun _ _ => Except.error "locate raised".data
    perception := fun _ _ _ => Except.error "quota exceeded".data }

/-- C3: on an empty store the lookup-and-act run takes the estimation path:
its very first observable event is the Perception Port call, before any
terminal result; and when the store holds a record for the description
whose template file exists and whose template search reports a confident
match, the run ends matched — it clicks the match centre, changes nothing,
and never invokes the Perception Port (its trace is exactly one click). -/
theorem locator_state_coverage :
    (∀ (env : Env) (disk : Disk) (screen : ScreenImage) (desc ts : Chars),
      (learnAndClick env [] disk screen desc ts).trace.head? =
        some Event.perceptionCall) ∧
    (∀ (env : Env) (cache : Cache) (disk : Disk) (screen : ScreenImage)
        (desc ts : Chars) (e : ElementRecord) (pt : Point),
      dictGet cache desc = some e →
      env.fileExists e.filepath = true →
      env.locate e.filepath (4 / 5) = Except.ok (some pt) →
      learnAndClick env cache disk screen desc ts =
        ⟨true, some pt, [Event.click pt], cache, disk⟩) := by
  constructor
  · intro env disk screen desc ts
    have hfind : findElementOnScreen env [] desc (4 / 5) = none := rfl
    cases hx : extractElementFromDescription env screen desc with
    | none => simp [learnAndClick, hfind, hx]
    | some p =>
      obtain ⟨img, g⟩ := p
      simp [learnAndClick, hfind, hx]
  · intro env cache disk screen desc ts e pt h1 h2 h3
    have hfind : findElementOnScreen env cache desc (4 / 5) = some pt := by
      unfold findElementOnScreen
      rw [h1]
      simp [h2, h3]
    simp [learnAndClick, hfind]

/-- C3 witness: the theorem applied to an empty store with a fixed
response, and to a store holding the sample record in an environment whose
search matches at centre (7, 9). -/
theorem locator_state_coverage_witness :
    (learnAndClick (constPerceptionEnv "no coordinates here".data) [] []
        ⟨100, 100, 0⟩ "ok button".data "ts".data).trace.head? =
      some Event.perceptionCall ∧
    learnAndClick matchEnv cachedButton [] ⟨100, 100, 0⟩ "button".data "ts".data =
      ⟨true, some (7, 9), [Event.click (7, 9)], cachedButton, []⟩ :=
  ⟨locator_state_coverage.1 (constPerceptionEnv "no coordinates here".data) []
      ⟨100, 100, 0⟩ "ok button".data "ts".data,
   locator_state_coverage.2 matchEnv cachedButton [] ⟨100, 100, 0⟩ "button".data
      "ts".data recButton (7, 9) rfl rfl rfl⟩

/-- C4: the lookup-and-act run always returns a flag and point pair, over
every oracle behaviour including raised search and vision errors, which the
embedded handlers catch: the flag is false exactly when the point is none,
so every failure resolves to the returned pair false and none rather than
an escaping exception; and a cached record whose template file is missing
from disk makes the cached-template lookup answer none — not found, never
a crash. -/
theorem locator_failure_contract :
    (∀ (env : Env) (cache : Cache) (disk : Disk) (screen : ScreenImage)
        (desc ts : Chars),
      ((learnAndClick env cache disk screen desc ts).success = false ↔
        (learnAndClick env cache disk screen desc ts).point = none)) ∧
    (∀ (env : Env) (cache : Cache) (desc : Chars) (conf : ℚ) (e : ElementRecord),
      dictGet cache desc = some e →
      env.fileExists e.filepath = false →
      findElementOnScreen env cache desc conf = none) := by
  constructor
  · intro env cache disk screen desc ts
    cases hf : findElementOnScreen env cache desc (4 / 5) with
    | some pt => simp [learnAndClick, hf]
    | none =>
      cases hx : extractElementFromDescription env screen desc with
      | none => simp [learnAndClick, hf, hx]
      | some p =>
        obtain ⟨img, g⟩ := p
        simp [learnAndClick, hf, hx]
  · intro env cache desc conf e h1 h2
    unfold findElementOnScreen
    rw [h1]
    simp [h2]

/-- C4 witness: the theorem applied to an environment in which the template
file is missing, the template search raises and the vision call raises; the
run still returns a pair, with the flag false exactly when the point is
none, and the cached lookup answers none for the record with the missing
file. -/
theorem locator_failure_contract_witness :
    ((learnAndClick failingEnv cachedButton [] ⟨100, 100, 0⟩ "button".data
        "ts".data).success = false ↔
      (learnAndClick failingEnv cachedButton [] ⟨100, 100, 0⟩ "button".data
        "ts".data).point = none) ∧
    findElementOnScreen failingEnv cachedButton "button".data (4 / 5) = none :=
  ⟨locator_failure_contract.1 failingEnv cachedButton [] ⟨100, 100, 0⟩
      "button".data "ts".data,
   locator_failure_contract.2 failingEnv cachedButton "button".data (4 / 5)
      recButton rfl rfl⟩

/-- Assignment followed by lookup under the same key returns the assigned
value. -/
lemma dictGet_insert_self {α : Type} (d : List (Chars × α)) (k : Chars) (v : α) :
    dictGet (dictInsert d k v) k = some v := by
  induction d with
  | nil => simp [dictInsert, dictGet]
  | cons p rest ih =>
    obtain ⟨k', v'⟩ := p
    by_cases h : k' = k
    · subst h
      simp [dictInsert, dictGet]
    · simp [dictInsert, dictGet, h, ih]

/-- Assignment leaves lookups under every other key unchanged. -/
lemma dictGet_insert_ne {α : Type} (d : List (Chars × α)) (k k' : Chars) (v : α)
    (h : k' ≠ k) :
    dictGet (dictInsert d k v) k' = dictGet d k' := by
  induction d with
  | nil => simp [dictInsert, dictGet, Ne.symm h]
  | cons p rest ih =>
    obtain ⟨k'', v''⟩ := p
    by_cases hk : k'' = k
    · subst hk
      simp [dictInsert, dictGet, Ne.symm h]
    · by_cases hk' : k'' = k'
      · subst hk'
        simp [dictInsert, dictGet, hk]
      · simp [dictInsert, dictGet, hk, hk', ih]

/-- The number of entries under a key after an assignment to that key: one
when the key was absent, unchanged otherwise. -/
lemma countKey_insert {α : Type} (d : List (Chars × α)) (k : Chars) (v : α) :
    countKey (dictInsert d k v) k =
      if countKey d k = 0 then 1 else countKey d k := by
  induction d with
  | nil => simp [dictInsert, countKey]
  | cons p rest ih =>
    obtain ⟨k', v'⟩ := p
    by_cases h : k' = k
    · subst h
      simp [dictInsert, countKey]
    · simp only [dictInsert, if_neg h, countKey, ih]
      split_ifs <;> omega

/-- C7: saving twice under the same name leaves exactly one record under
that name in any well-formed store, and both the recorded geometry and the
template image retrievable through the recorded file path are those of the
most recent save — last write wins, nothing is merged. -/
theorem put_last_write_wins (env : Env) (cache : Cache) (disk : Disk)
    (hwf : ∀ k : Chars, countKey cache k ≤ 1) (name : Chars)
    (img1 img2 : Image) (g1 g2 : Geometry) (ts1 ts2 : Chars) :
    countKey (saveElement env (saveElement env cache disk name img1 g1 ts1).1
        (saveElement env cache disk name img1 g1 ts1).2 name img2 g2 ts2).1 name = 1 ∧
    ∃ e : ElementRecord,
      dictGet (saveElement env (saveElement env cache disk name img1 g1 ts1).1
          (saveElement env cache disk name img1 g1 ts1).2 name img2 g2 ts2).1 name =
        some e ∧
      e.coords = g2 ∧ e.timestamp = ts2 ∧
      dictGet (saveElement env (saveElement env cache disk name img1 g1 ts1).1
          (saveElement env cache disk name img1 g1 ts1).2 name img2 g2 ts2).2
        e.filepath = some img2 := by
  constructor
  · simp only [saveElement, countKey_insert]
    have := hwf name
    split_ifs <;> omega
  · refine ⟨⟨safeName name ++ "_".data ++ ts2 ++ ".png".data,
      env.elementsDir ++ "/".data ++ (safeName name ++ "_".data ++ ts2 ++ ".png".data),
      g2, ts2⟩, ?_, rfl, rfl, ?_⟩
    · simp only [saveElement]
      exact dictGet_insert_self _ _ _
    · simp only [saveElement]
      exact dictGet_insert_self _ _ _

/-- C7 witness: two saves under the same name into the empty store, with
different images, geometries and timestamps. -/
theorem put_last_write_wins_witness :
    countKey (saveElement matchEnv
        (saveElement matchEnv [] [] "button".data ⟨⟨100, 100, 0⟩, ⟨0, 0, 10, 10⟩⟩
          ⟨1, 2, 3, 4⟩ "t1".data).1
        (saveElement matchEnv [] [] "button".data ⟨⟨100, 100, 0⟩, ⟨0, 0, 10, 10⟩⟩
          ⟨1, 2, 3, 4⟩ "t1".data).2
        "button".data ⟨⟨100, 100, 1⟩, ⟨5, 5, 20, 20⟩⟩ ⟨5, 6, 7, 8⟩ "t2".data).1
      "button".data = 1 ∧
    ∃ e : ElementRecord,
      dictGet (saveElement matchEnv
          (saveElement matchEnv [] [] "button".data ⟨⟨100, 100, 0⟩, ⟨0, 0, 10, 10⟩⟩
            ⟨1, 2, 3, 4⟩ "t1".data).1
          (saveElement matchEnv [] [] "button".data ⟨⟨100, 100, 0⟩, ⟨0, 0, 10, 10⟩⟩
            ⟨1, 2, 3, 4⟩ "t1".data).2
          "button".data ⟨⟨100, 100, 1⟩, ⟨5, 5, 20, 20⟩⟩ ⟨5, 6, 7, 8⟩ "t2".data).1
        "button".data = some e ∧
      e.coords = ⟨5, 6, 7, 8⟩ ∧ e.timestamp = "t2".data ∧
      dictGet (saveElement matchEnv
          (saveElement matchEnv [] [] "button".data ⟨⟨100, 100, 0⟩, ⟨0, 0, 10, 10⟩⟩
            ⟨1, 2, 3, 4⟩ "t1".data).1
          (saveElement matchEnv [] [] "button".data ⟨⟨100, 100, 0⟩, ⟨0, 0, 10, 10⟩⟩
            ⟨1, 2, 3, 4⟩ "t1".data).2
          "button".data ⟨⟨100, 100, 1⟩, ⟨5, 5, 20, 20⟩⟩ ⟨5, 6, 7, 8⟩ "t2".data).2
        e.filepath = some ⟨⟨100, 100, 1⟩, ⟨5, 5, 20, 20⟩⟩ :=
  put_last_write_wins matchEnv [] [] (fun k => by simp [countKey]) "button".data
    ⟨⟨100, 100, 0⟩, ⟨0, 0, 10, 10⟩⟩ ⟨⟨100, 100, 1⟩, ⟨5, 5, 20, 20⟩⟩
    ⟨1, 2, 3, 4⟩ ⟨5, 6, 7, 8⟩ "t1".data "t2".data

/-- C8: the claim says element identity is the normalized description —
case-folded and filesystem-safe — so that two descriptions normalizing to
the same string name the same record. The store keys records by the raw
description instead: Login Button and login button normalize identically,
yet after saving under Login Button a lookup under login button misses,
and saving under both leaves two records in the store. -/
theorem identity_normalized_counterexample :
    safeName "Login Button".data = safeName "login button".data ∧
    dictGet (saveElement matchEnv [] [] "Login Button".data
        ⟨⟨100, 100, 0⟩, ⟨0, 0, 10, 10⟩⟩ ⟨1, 2, 3, 4⟩ "t1".data).1
      "login button".data = none ∧
    (saveElement matchEnv
        (saveElement matchEnv [] [] "Login Button".data
          ⟨⟨100, 100, 0⟩, ⟨0, 0, 10, 10⟩⟩ ⟨1, 2, 3, 4⟩ "t1".data).1
        (saveElement matchEnv [] [] "Login Button".data
          ⟨⟨100, 100, 0⟩, ⟨0, 0, 10, 10⟩⟩ ⟨1, 2, 3, 4⟩ "t1".data).2
        "login button".data ⟨⟨100, 100, 1⟩, ⟨5, 5, 20, 20⟩⟩ ⟨5, 6, 7, 8⟩
        "t2".data).1.length = 2 := by
  refine ⟨by decide, by decide, by decide⟩

/-- C8 (amended): element identity in the store is the raw description
string compared exactly; the case-folded, filesystem-safe normalization is
applied only to the stored template file name. A save records under the
exact raw name — with the sanitised name inside the file name — and leaves
the record of every other raw name, case variants included, unchanged. -/
theorem identity_raw_name (env : Env) (cache : Cache) (disk : Disk)
    (name other : Chars) (img : Image) (g : Geometry) (ts : Chars)
    (hne : other ≠ name) :
    dictGet (saveElement env cache disk name img g ts).1 name =
      some ⟨safeName name ++ "_".data ++ ts ++ ".png".data,
            env.elementsDir ++ "/".data ++
              (safeName name ++ "_".data ++ ts ++ ".png".data),
            g, ts⟩ ∧
    dictGet (saveElement env cache disk name img g ts).1 other =
      dictGet cache other := by
  constructor
  · simp only [saveElement]
    exact dictGet_insert_self _ _ _
  · simp only [saveElement]
    exact dictGet_insert_ne _ _ _ _ hne

/-- C8 witness: the amended theorem applied to the empty store, the name
Login Button and the case variant login button. -/
theorem identity_raw_name_witness :
    dictGet (saveElement matchEnv [] [] "Login Button".data
        ⟨⟨100, 100, 0⟩, ⟨0, 0, 10, 10⟩⟩ ⟨1, 2, 3, 4⟩ "t1".data).1
      "Login Button".data =
      some ⟨safeName "Login Button".data ++ "_".data ++ "t1".data ++ ".png".data,
            matchEnv.elementsDir ++ "/".data ++
              (safeName "Login Button".data ++ "_".data ++ "t1".data ++ ".png".data),
            ⟨1, 2, 3, 4⟩, "t1".data⟩ ∧
    dictGet (saveElement matchEnv [] [] "Login Button".data
        ⟨⟨100, 100, 0⟩, ⟨0, 0, 10, 10⟩⟩ ⟨1, 2, 3, 4⟩ "t1".data).1
      "login button".data = dictGet [] "login button".data :=
  identity_raw_name matchEnv [] [] "Login Button".data "login button".data
    ⟨⟨100, 100, 0⟩, ⟨0, 0, 10, 10⟩⟩ ⟨1, 2, 3, 4⟩ "t1".data (by decide)

/-- C6: the claim says the load returns an empty mapping when the cache
file does not exist, and on an unparsable file fails with a distinguishable
corrupt-cache error without crashing the process. The source has no
handler: the decode error of the json load propagates out of the load — and
out of the constructor that calls it, none of whose callers catch it — so
the process crashes on a corrupt cache file. -/
theorem load_corrupt_counterexample :
    loadCache true (Except.error "Expecting value: line 1 column 1".data) =
      Except.error "Expecting value: line 1 column 1".data := rfl

/-- C6 (amended): the load returns the empty mapping when the cache file
does not exist; when the file exists, the json decode result is returned
unchanged, so a decode error on a corrupt file propagates uncaught — the
data loss is not silently hidden behind an empty mapping, but the error
escapes the load and aborts the run rather than being converted into a
handled corrupt-cache result. -/
theorem load_contract :
    (∀ jsonLoad : Except Chars Cache, loadCache false jsonLoad = Except.ok []) ∧
    (∀ m : Chars, loadCache true (Except.error m) = Except.error m) ∧
    (∀ c : Cache, loadCache true (Except.ok c) = Except.ok c) :=
  ⟨fun _ => rfl, fun _ => rfl, fun _ => rfl⟩

/-- C10: the claim says the save writes with a write-then-replace
discipline so that a crash mid-write leaves either the complete previous
or the complete new mapping. The source opens the cache file itself in
write mode, which truncates it, and then writes: a crash after the
truncation and before the write leaves an empty file — neither the previous
content OLD nor the new content NEW. -/
theorem save_atomic_counterexample :
    runOps "OLD".data ((saveCacheOps "NEW".data).take 1) = [] ∧
    ([] : Chars) ≠ "OLD".data ∧
    ([] : Chars) ≠ "NEW".data ∧
    runOps "OLD".data (saveCacheOps "NEW".data) = "NEW".data := by
  refine ⟨by decide, by decide, by decide, by decide⟩

/-- C10 (amended): the save writes the serialised mapping in place: it
truncates the cache file and then writes the new content to the same path,
with no temporary path and no rename. A completed save leaves exactly the
new content, and a crash between the truncation and the write leaves an
empty file, regardless of the previous content. -/
theorem save_truncate_then_write (old new : Chars) :
    runOps old (saveCacheOps new) = new ∧
    runOps old ((saveCacheOps new).take 1) = [] := by
  constructor <;> simp [runOps, saveCacheOps, applyOp]
